import Mathlib

/-!
Shallow embedding of the phenotype-computation engine of
`cip_python/phenotypes/parenchyma_phenotypes.py` and of
`DataProcessing.standardization` of `cip_python/dcnn/data/data_processing.py`.

Conventions of the embedding:
* CT intensities, spacing components and phenotype values are rationals (`ℚ`);
  the Python code computes with floats, and every formula the theorems below
  touch is exact rational arithmetic.  Rational division is total (`x / 0 = 0`)
  whereas NumPy float division by zero yields `nan`; the only place the two
  differ is the value stored for a threshold fraction over an empty mask, a
  value no theorem below depends on.
* A 3-D volume is flattened to a list in row-major order together with its
  shape, mirroring NumPy boolean indexing over flat iteration order.
* NumPy/SciPy reductions that raise on an empty array (`np.min`, `np.max`,
  `np.percentile`, `scipy.stats.mode` via its `[0][0]` indexing) are embedded
  as an `ExecError.emptyValueError`; reductions that merely return `nan`
  (`np.mean`, `np.median`, `np.std`, `kurtosis`, `skew`) stay total.
* `np.std`, `kurtosis` and `skew` are square-root valued (irrational), so they
  enter the embedding as parameters (`FloatStats`); no claim depends on the
  number they return, only on whether a row is produced.
-/

/-- A volume: the NumPy array shape together with the row-major flat data. -/
structure Vol (α : Type) where
  shape : List Nat
  data : List α
deriving DecidableEq

/-- One row of the results table: (region name, type name, phenotype name,
value, case id), the data `Phenotypes.add_pheno` records. -/
structure Row where
  chest_region : String
  chest_type : String
  pheno_name : String
  value : ℚ
  cid : String
deriving DecidableEq

/-- Errors `execute`/`add_pheno_group` can raise: the dimension assertion at
entry, the phenotype-name assertion, the Python `NameError` from the unbound
loop variable `r` in the chest-types loop, and the `ValueError`/`IndexError`
NumPy and SciPy raise when reducing an empty array. -/
inductive ExecError where
  | dimensionMismatch
  | invalidPhenotypeName
  | nameLookupError
  | emptyValueError
deriving DecidableEq

/-- Embeds `np.sum(mask)`: the number of `True` voxels. -/
def mask_sum (mask : List Bool) : Nat := mask.count true

/-- Embeds `ct[mask]`: the CT values at the `True` positions of the mask, in flat
iteration order. -/
def masked_values (ct : List ℚ) (mask : List Bool) : List ℚ :=
  (ct.zip mask).filterMap (fun p => if p.2 then some p.1 else none)

/-- Modelled from the spec: `RegionTypeParser` (in
`cip_python/utils/region_type_parser.py`, not part of the sources here) is the
Mask Resolver, specified only at its interface.  A label-map voxel value
encodes a (chest region, chest type) pair; we take the low byte as the region
code. -/
def regionOf (v : Int) : Int := v % 256

/-- Modelled from the spec: the chest-type code encoded in a label-map voxel
value (the byte above the region byte). -/
def typeOf (v : Int) : Int := (v / 256) % 256

/-- Modelled from the spec: `RegionTypeParser.get_mask(chest_region=r)` — the
boolean mask of voxels whose region code is `r`. -/
def get_mask_region (lm : List Int) (r : Int) : List Bool :=
  lm.map (fun v => decide (regionOf v = r))

/-- Modelled from the spec: `RegionTypeParser.get_mask(chest_type=t)`. -/
def get_mask_type (lm : List Int) (t : Int) : List Bool :=
  lm.map (fun v => decide (typeOf v = t))

/-- Modelled from the spec: `RegionTypeParser.get_mask(chest_region=r,
chest_type=t)`. -/
def get_mask_pair (lm : List Int) (r t : Int) : List Bool :=
  lm.map (fun v => decide (regionOf v = r) && decide (typeOf v = t))

/-- Modelled from the spec: `RegionTypeParser.get_all_chest_regions()` — the
distinct region codes present in the label map. -/
def get_all_chest_regions (lm : List Int) : List Int := (lm.map regionOf).dedup

/-- Modelled from the spec: `RegionTypeParser.get_chest_types()`. -/
def get_chest_types (lm : List Int) : List Int := (lm.map typeOf).dedup

/-- Modelled from the spec: `RegionTypeParser.get_all_pairs()`. -/
def get_all_pairs (lm : List Int) : List (Int × Int) :=
  (lm.map (fun v => (regionOf v, typeOf v))).dedup

/-- Modelled from the spec: `ChestConventions.GetChestRegionName` (the class
lives in `cip_python/ChestConventions.py`, not part of the sources here); it
maps a region code to a distinct printable name. -/
def GetChestRegionName (c : Int) : String := "Region" ++ toString c

/-- Modelled from the spec: `ChestConventions.GetChestTypeName`. -/
def GetChestTypeName (c : Int) : String := "Type" ++ toString c

/-- Modelled from the spec: `ChestConventions.GetChestWildCardName()`, the name
used for an unconstrained axis. -/
def GetChestWildCardName : String := "WildCard"

/-- Sorting as `np.sort`, ascending. -/
def np_sort (l : List ℚ) : List ℚ := l.mergeSort (fun a b => decide (a ≤ b))

/-- Mean as `np.mean` (0 on the empty list, where NumPy returns `nan`). -/
def np_mean (l : List ℚ) : ℚ := l.sum / l.length

/-- Percentile as `np.percentile(l, q)` with the default linear interpolation:
`h = (q/100)*(n-1)`, value `s[⌊h⌋] + (h-⌊h⌋)*(s[⌊h⌋+1] - s[⌊h⌋])` on sorted
data (the engine only calls this on a nonempty list). -/
def np_percentile (l : List ℚ) (q : ℚ) : ℚ :=
  let s := np_sort l
  let h : ℚ := (q / 100) * ((s.length : ℚ) - 1)
  let i : Nat := (Rat.floor h).toNat
  let lo := s.getD i 0
  let hi := s.getD (i + 1) lo
  lo + (h - (Rat.floor h : ℚ)) * (hi - lo)

/-- Median as `np.median`: middle element of the sorted data, or the average of the two
middle elements for even length. -/
def np_median (l : List ℚ) : ℚ :=
  let s := np_sort l
  let n := s.length
  if n % 2 = 1 then s.getD (n / 2) 0
  else (s.getD (n / 2 - 1) 0 + s.getD (n / 2) 0) / 2

/-- Mode as `scipy.stats.mode(l)[0][0]`: the smallest most-frequent value (the engine
only calls this on a nonempty list). -/
def np_mode (l : List ℚ) : ℚ :=
  (l.dedup.foldl
    (fun best x =>
      match best with
      | none => some x
      | some b =>
        if l.count b < l.count x ∨ (l.count x = l.count b ∧ x < b) then some x
        else some b)
    none).getD 0

/-- Minimum as `np.min` on a nonempty list. -/
def np_min (l : List ℚ) : ℚ :=
  match l with
  | [] => 0
  | x :: xs => xs.foldl min x

/-- Maximum as `np.max` on a nonempty list. -/
def np_max (l : List ℚ) : ℚ :=
  match l with
  | [] => 0
  | x :: xs => xs.foldl max x

/-- The square-root valued statistics the dispatch delegates to NumPy/SciPy
(`np.std`, `scipy.stats.kurtosis(·, bias=False, fisher=True)`,
`scipy.stats.skew(·, bias=False)`).  Their values are irrational in general,
so the embedding is parametric in them; no claim depends on the numbers. -/
structure FloatStats where
  std : List ℚ → ℚ
  kurtosis : List ℚ → ℚ
  skew : List ℚ → ℚ

/-- A concrete degenerate instantiation of `FloatStats`, used to close
witnesses and counterexamples (the statements proved with it never look at
these three statistics). -/
def zeroStats : FloatStats := ⟨fun _ => 0, fun _ => 0, fun _ => 0⟩

/-- Embeds `ParenchymaPhenotypes.declare_pheno_names`: the fixed phenotype catalog. -/
def declare_pheno_names : List String :=
  ["LAA950", "LAA910", "LAA856", "HAA700", "HAA600", "HAA500",
   "HAA250", "Perc10", "Perc15", "HUMean", "HUStd", "HUKurtosis",
   "HUSkewness", "HUMode", "HUMedian", "HUMin", "HUMax",
   "HUMean500", "HUStd500", "HUKurtosis500", "HUSkewness500",
   "HUMode500", "HUMedian500", "HUMin500", "HUMax500", "Volume",
   "Mass"]

/-- Embeds `np.prod(spacing)` for the 3-component spacing vector. -/
def spacing_prod (sp : ℚ × ℚ × ℚ) : ℚ := sp.1 * sp.2.1 * sp.2.2

/-- The `Mass` computation of `add_pheno_group` (source lines 404-439):
`pheno_val` starts at 0 and each of the four HU intervals adds
`np.sum(density(HU) * np.prod(spacing) * 0.001)` when its voxel subset is
nonempty. -/
def mass_code (sp : ℚ × ℚ × ℚ) (v : List ℚ) : ℚ :=
  let m : ℚ := (1.21e-3 - 0.93) / (-1000 + 98)
  let b : ℚ := 1.21e-3 + 1000 * m
  let hu1 := (v.filter (fun x => decide (x < -98))).map (fun x => max x (-1000))
  let c1 := if 0 < hu1.length
    then (hu1.map (fun x => (m * x + b) * spacing_prod sp * 0.001)).sum else 0
  let hu2 := v.filter (fun x => decide (-98 ≤ x) && decide (x ≤ 18))
  let c2 := if 0 < hu2.length
    then (hu2.map (fun x => (1.018 + 0.893 * x / 1000) * spacing_prod sp * 0.001)).sum else 0
  let hu3 := v.filter (fun x => decide (18 < x) && decide (x ≤ 100))
  let c3 := if 0 < hu3.length
    then (hu3.map (fun x => (1.003 + 1.169 * x / 1000) * spacing_prod sp * 0.001)).sum else 0
  let hu4 := v.filter (fun x => decide (100 < x))
  let c4 := if 0 < hu4.length
    then (hu4.map (fun x => (1.017 + 0.592 * x / 1000) * spacing_prod sp * 0.001)).sum else 0
  c1 + c2 + c3 + c4

/-- The value-dispatch of `add_pheno_group` (source lines 334-439): given the
requested phenotype name, either the computed value (`some`), "undefined — no
row" (`none`), or the error an empty-array reduction raises. -/
def pheno_value (fs : FloatStats) (sp : ℚ × ℚ × ℚ) (ct : List ℚ) (mask : List Bool)
    (pheno_name : String) : Except ExecError (Option ℚ) :=
  let v := masked_values ct mask
  let msum : ℚ := (mask_sum mask : ℚ)
  let hus := v.filter (fun x => decide (x ≤ -500))
  if pheno_name = "LAA950" then
    .ok (some (((v.filter (fun x => decide (x ≤ -950))).length : ℚ) / msum))
  else if pheno_name = "LAA910" then
    .ok (some (((v.filter (fun x => decide (x ≤ -910))).length : ℚ) / msum))
  else if pheno_name = "LAA856" then
    .ok (some (((v.filter (fun x => decide (x ≤ -856))).length : ℚ) / msum))
  else if pheno_name = "HAA700" then
    .ok (some (((v.filter (fun x => decide (-700 ≤ x))).length : ℚ) / msum))
  else if pheno_name = "HAA600" then
    .ok (some (((v.filter (fun x => decide (-600 ≤ x))).length : ℚ) / msum))
  else if pheno_name = "HAA500" then
    .ok (some (((v.filter (fun x => decide (-500 ≤ x))).length : ℚ) / msum))
  else if pheno_name = "HAA250" then
    .ok (some (((v.filter (fun x => decide (-250 ≤ x))).length : ℚ) / msum))
  else if pheno_name = "Perc15" then
    (if v.isEmpty then .error .emptyValueError else .ok (some (np_percentile v 15)))
  else if pheno_name = "Perc10" then
    (if v.isEmpty then .error .emptyValueError else .ok (some (np_percentile v 10)))
  else if pheno_name = "HUMean" then .ok (some (np_mean v))
  else if pheno_name = "HUStd" then .ok (some (fs.std v))
  else if pheno_name = "HUKurtosis" then .ok (some (fs.kurtosis v))
  else if pheno_name = "HUSkewness" then .ok (some (fs.skew v))
  else if pheno_name = "HUMode" then
    (if v.isEmpty then .error .emptyValueError else .ok (some (np_mode v)))
  else if pheno_name = "HUMedian" then .ok (some (np_median v))
  else if pheno_name = "HUMin" then
    (if v.isEmpty then .error .emptyValueError else .ok (some (np_min v)))
  else if pheno_name = "HUMax" then
    (if v.isEmpty then .error .emptyValueError else .ok (some (np_max v)))
  else if pheno_name = "HUMean500" then
    .ok (if hus.isEmpty then none else some (np_mean hus))
  else if pheno_name = "HUStd500" then
    .ok (if hus.isEmpty then none else some (fs.std hus))
  else if pheno_name = "HUKurtosis500" then
    .ok (if hus.isEmpty then none else some (fs.kurtosis hus))
  else if pheno_name = "HUSkewness500" then
    .ok (if hus.isEmpty then none else some (fs.skew hus))
  else if pheno_name = "HUMode500" then
    .ok (if hus.isEmpty then none else some (np_mode hus))
  else if pheno_name = "HUMedian500" then
    .ok (if hus.isEmpty then none else some (np_median hus))
  else if pheno_name = "HUMin500" then
    .ok (if hus.isEmpty then none else some (np_min hus))
  else if pheno_name = "HUMax500" then
    .ok (if hus.isEmpty then none else some (np_max hus))
  else if pheno_name = "Volume" then .ok (some (spacing_prod sp * msum))
  else if pheno_name = "Mass" then .ok (some (mass_code sp (masked_values ct mask)))
  else .ok none

/-- Embeds `ParenchymaPhenotypes.add_pheno_group`: asserts the phenotype name is in
the catalog, computes the value, and — when the value is defined — produces
the row `add_pheno` appends. -/
def add_pheno_group (fs : FloatStats) (sp : ℚ × ℚ × ℚ) (ct : List ℚ) (mask : List Bool)
    (chest_region chest_type pheno_name cid : String) : Except ExecError (Option Row) :=
  if pheno_name ∈ declare_pheno_names then
    (pheno_value fs sp ct mask pheno_name).map
      (Option.map (fun q => ⟨chest_region, chest_type, pheno_name, q, cid⟩))
  else .error .invalidPhenotypeName

/-- The engine state: the constructor configuration of
`ParenchymaPhenotypes.__init__`, the catalog installed by the `Phenotypes`
base constructor, the accumulating dataframe and the current case id. -/
structure Engine where
  chest_regions_ : Option (List Int)
  chest_types_ : Option (List Int)
  pairs_ : Option (List (Int × Int))
  requested_pheno_names : Option (List String)
  pheno_names_ : List String
  df : List Row
  cid_ : Option String
deriving DecidableEq

/-- The range validation `np.max(l) > 255 or np.min(l) < 0` of `__init__`
(`np.max` of an empty array raises its own `ValueError`). -/
def check_code_range (l : List Int) (msg : String) : Except String Unit :=
  match l.max?, l.min? with
  | some mx, some mn => if 255 < mx ∨ mn < 0 then .error msg else .ok ()
  | _, _ => .error "zero-size array to reduction operation"

/-- Embeds `ParenchymaPhenotypes.__init__` (source lines 77-106).  The 1-D/2-D shape
assertions cannot fail in this embedding (selectors are typed lists of codes
and of code pairs).  Note the source's pairs branch (line 97) re-runs the
range check on `chest_types`, not on `pairs`; when `pairs` is given while
`chest_types` is `None`, `np.max(None)` evaluates to `None` and the Python 2
comparison `None < 0` is true, so that branch raises the chest_types
`ValueError` as well. -/
def init_parenchyma (chest_regions chest_types : Option (List Int))
    (pairs : Option (List (Int × Int))) (pheno_names : Option (List String)) :
    Except String Engine := do
  (match chest_regions with
   | some rs => check_code_range rs "chest_regions must be a 1D array with elements in [0, 255]"
   | none => pure ())
  (match chest_types with
   | some ts => check_code_range ts "chest_types must be a 1D array with elements in [0, 255]"
   | none => pure ())
  (match pairs with
   | some _ =>
     (match chest_types with
      | some ts => check_code_range ts "chest_types must be a 1D array with elements in [0, 255]"
      | none => .error "chest_types must be a 1D array with elements in [0, 255]")
   | none => pure ())
  pure { chest_regions_ := chest_regions, chest_types_ := chest_types,
         pairs_ := pairs, requested_pheno_names := pheno_names,
         pheno_names_ := declare_pheno_names, df := [], cid_ := none }

/-- The dimension assertions at the entry of `execute` (source lines 234-240):
the number of axes must agree, and then every loop iteration compares
`ct.shape[0]` with `lm.shape[0]` (the loop index `i` is not used). -/
def dim_check (ctShape lmShape : List Nat) : Bool :=
  decide (ctShape.length = lmShape.length) &&
  (List.range ctShape.length).all (fun _ => ctShape.getD 0 0 == lmShape.getD 0 0)

/-- The requested-phenotype-name resolution of `execute` (source lines
246-250): call-time argument, else constructor request, else the full
catalog. -/
def resolve_pheno_names (e : Engine) (pheno_names : Option (List String)) : List String :=
  match pheno_names with
  | some l => l
  | none =>
    match e.requested_pheno_names with
    | some l => l
    | none => e.pheno_names_

/-- The selector resolution of `execute` (source lines 252-272): each kind is
the call-time argument if given, else the constructor value; only when all
three merged kinds are `None` are the region, type and pair sets actually
present in the label map (via the Mask Resolver) substituted. -/
def resolve_selectors (eR eT : Option (List Int)) (eP : Option (List (Int × Int)))
    (aR aT : Option (List Int)) (aP : Option (List (Int × Int))) (lm : List Int) :
    Option (List Int) × Option (List Int) × Option (List (Int × Int)) :=
  let rs := match aR with | some x => some x | none => eR
  let ts := match aT with | some x => some x | none => eT
  let ps := match aP with | some x => some x | none => eP
  if rs.isNone && ts.isNone && ps.isNone then
    (some (get_all_chest_regions lm), some (get_chest_types lm), some (get_all_pairs lm))
  else (rs, ts, ps)

/-- The inner phenotype loop shared by the three structure loops: one
`add_pheno_group` call per requested name, collecting the appended rows. -/
def group_rows (fs : FloatStats) (sp : ℚ × ℚ × ℚ) (ct : List ℚ) (mask : List Bool)
    (chest_region chest_type : String) (phenos : List String) (cid : String) :
    Except ExecError (List Row) :=
  phenos.foldlM
    (fun acc n => do
      let o ← add_pheno_group fs sp ct mask chest_region chest_type n cid
      pure (acc ++ o.toList))
    []

/-- The chest-regions loop of `execute` (source lines 276-282): every nonzero
region code contributes one group keyed (region name, wildcard). -/
def region_loop_rows (fs : FloatStats) (sp : ℚ × ℚ × ℚ) (ct : List ℚ) (lm : List Int)
    (rs : Option (List Int)) (phenos : List String) (cid : String) :
    Except ExecError (List Row) :=
  match rs with
  | none => .ok []
  | some l =>
    l.foldlM
      (fun acc r =>
        if r ≠ 0 then do
          let rows ← group_rows fs sp ct (get_mask_region lm r)
            (GetChestRegionName r) GetChestWildCardName phenos cid
          pure (acc ++ rows)
        else pure acc)
      []

/-- The Python `for r in rs` loop variable as it remains bound after the
regions loop: the last element of `rs`, or unbound when the loop never ran. -/
def leaked_region_var (rs : Option (List Int)) : Option Int :=
  rs.bind (fun l => l.getLast?)

/-- The chest-types loop of `execute` (source lines 283-289).  The source
passes `c.GetChestTypeName(r)` — the leaked loop variable of the regions loop,
not the current type code `t`; when `r` was never bound the first
`add_pheno_group` argument evaluation raises a `NameError` (no name is looked
up when no phenotype is requested). -/
def type_loop_rows (fs : FloatStats) (sp : ℚ × ℚ × ℚ) (ct : List ℚ) (lm : List Int)
    (rs ts : Option (List Int)) (phenos : List String) (cid : String) :
    Except ExecError (List Row) :=
  match ts with
  | none => .ok []
  | some l =>
    l.foldlM
      (fun acc t =>
        if t ≠ 0 then
          if phenos.isEmpty then pure acc
          else
            match leaked_region_var rs with
            | none => .error .nameLookupError
            | some r => do
              let rows ← group_rows fs sp ct (get_mask_type lm t)
                GetChestWildCardName (GetChestTypeName r) phenos cid
              pure (acc ++ rows)
        else pure acc)
      []

/-- The region-type-pairs loop of `execute` (source lines 290-297): every pair
other than (0, 0) contributes one group keyed (region name, type name). -/
def pair_loop_rows (fs : FloatStats) (sp : ℚ × ℚ × ℚ) (ct : List ℚ) (lm : List Int)
    (ps : Option (List (Int × Int))) (phenos : List String) (cid : String) :
    Except ExecError (List Row) :=
  match ps with
  | none => .ok []
  | some l =>
    l.foldlM
      (fun acc p =>
        if ¬(p.1 = 0 ∧ p.2 = 0) then do
          let rows ← group_rows fs sp ct (get_mask_pair lm p.1 p.2)
            (GetChestRegionName p.1) (GetChestTypeName p.2) phenos cid
          pure (acc ++ rows)
        else pure acc)
      []

/-- Embeds `ParenchymaPhenotypes.execute` (source lines 135-299): dimension check at
entry, case-id and spacing recording, phenotype-name and selector resolution,
then the three structure loops appending to the dataframe.  The `cid` string
type assertion always holds in the embedding.  On an assertion failure partway
through, Python leaves the partially extended dataframe behind; the `Except`
embedding reports only the error, a difference no claim observes.

`execute_rows` is the body of the three structure loops (regions, then types,
then pairs), collecting the rows `execute` appends. -/
def execute_rows (fs : FloatStats) (sp : ℚ × ℚ × ℚ) (ct : List ℚ) (lm : List Int)
    (rs ts : Option (List Int)) (ps : Option (List (Int × Int)))
    (phenos : List String) (cid : String) : Except ExecError (List Row) := do
  let rrows ← region_loop_rows fs sp ct lm rs phenos cid
  let trows ← type_loop_rows fs sp ct lm rs ts phenos cid
  let prows ← pair_loop_rows fs sp ct lm ps phenos cid
  pure (rrows ++ trows ++ prows)

def execute (fs : FloatStats) (e : Engine) (ct : Vol ℚ) (lm : Vol Int) (cid : String)
    (sp : ℚ × ℚ × ℚ) (chest_regions chest_types : Option (List Int))
    (pairs : Option (List (Int × Int))) (pheno_names : Option (List String)) :
    Except ExecError Engine :=
  if dim_check ct.shape lm.shape then
    let phenos := resolve_pheno_names e pheno_names
    let sel := resolve_selectors e.chest_regions_ e.chest_types_ e.pairs_
      chest_regions chest_types pairs lm.data
    (execute_rows fs sp ct.data lm.data sel.1 sel.2.1 sel.2.2 phenos cid).map
      (fun rows => { e with df := e.df ++ rows, cid_ := some cid })
  else .error .dimensionMismatch

/-- Mean `np.mean` of an image array, for `DataProcessing.standardization`. -/
def listMean (l : List ℚ) : ℚ := l.sum / l.length

/-- The variance (square of `np.std`, population convention `ddof=0`). -/
def listVar (l : List ℚ) : ℚ :=
  (l.map (fun x => (x - listMean l) ^ 2)).sum / l.length

/-- Embeds `DataProcessing.standardization` (source lines 50-83) with `None`-able
mean and std arguments.  The float32 copy/in-place `out` mechanics carry no
arithmetic content and are dropped.  `image.std()` is square-root valued, so
the embedding takes the std computation as the parameter `imgStd`; a caller
supplies it together with the facts (`imgStd l ≥ 0`, `(imgStd l)^2 = listVar
l`) the real one satisfies.  The guard replacing a std of at most `0.0001`
by `1.0` is translated verbatim. -/
def standardization (imgStd : List ℚ → ℚ) (img : List ℚ)
    (mean_value std_value : Option ℚ) : List ℚ :=
  let m := match mean_value with | some v => v | none => listMean img
  let s := match std_value with
    | some v => v
    | none =>
      let s0 := imgStd img
      if s0 ≤ 1 / 10000 then 1 else s0
  (img.map (fun x => x - m)).map (fun x => x / s)

/-- The `Mass` formula exactly as the specification words it: a sum over four
HU intervals — values below −98 clipped to −1000 with slope
`m = (1.21e-3 − 0.93)/(−1000 + 98)` and intercept `b = 1.21e-3 + 1000·m`, then
the three further linear density models — each voxel contributing
`density × spacing[0]·spacing[1]·spacing[2] × 0.001`, an empty interval
contributing an empty (zero) sum. -/
def mass_spec_formula (sp : ℚ × ℚ × ℚ) (v : List ℚ) : ℚ :=
  let m : ℚ := (1.21e-3 - 0.93) / (-1000 + 98)
  let b : ℚ := 1.21e-3 + 1000 * m
  ((v.filter (fun x => decide (x < -98))).map
      (fun x => (m * max x (-1000) + b) * (sp.1 * sp.2.1 * sp.2.2) * 0.001)).sum +
  ((v.filter (fun x => decide (-98 ≤ x) && decide (x ≤ 18))).map
      (fun x => (1.018 + 0.893 * x / 1000) * (sp.1 * sp.2.1 * sp.2.2) * 0.001)).sum +
  ((v.filter (fun x => decide (18 < x) && decide (x ≤ 100))).map
      (fun x => (1.003 + 1.169 * x / 1000) * (sp.1 * sp.2.1 * sp.2.2) * 0.001)).sum +
  ((v.filter (fun x => decide (100 < x))).map
      (fun x => (1.017 + 0.592 * x / 1000) * (sp.1 * sp.2.1 * sp.2.2) * 0.001)).sum

/-- A guarded interval contribution equals the raw sum (an empty sum is 0). -/
theorem sum_ite_length_pos (l : List ℚ) (f : ℚ → ℚ) :
    (if 0 < l.length then (l.map f).sum else 0) = (l.map f).sum := by
  cases l <;> simp

/-- A mask with no `True` voxel selects no CT values. -/
theorem masked_values_eq_nil (ct : List ℚ) (mask : List Bool)
    (h : mask_sum mask = 0) : masked_values ct mask = [] := by
  rw [masked_values, List.filterMap_eq_nil_iff]
  rintro ⟨a, b⟩ hp
  have hb : b ∈ mask := (List.of_mem_zip hp).2
  have hfalse : b = false := by
    cases b with
    | false => rfl
    | true => exact absurd hb (List.count_eq_zero.mp h)
  simp [hfalse]

/-- C8: for a non-empty mask the `Volume` phenotype is the product of the
three spacing components times the number of `True` voxels of the mask. -/
theorem volume_pheno_formula (fs : FloatStats) (sp : ℚ × ℚ × ℚ) (ct : List ℚ)
    (mask : List Bool) (chest_region chest_type cid : String)
    (h : 0 < mask_sum mask) :
    add_pheno_group fs sp ct mask chest_region chest_type "Volume" cid =
      .ok (some ⟨chest_region, chest_type, "Volume",
        sp.1 * sp.2.1 * sp.2.2 * (mask_sum mask : ℚ), cid⟩) := by
  simp [add_pheno_group, declare_pheno_names, pheno_value, spacing_prod,
    Except.map, Option.map]

/-- Witness for C8 at a concrete input: spacing (1, 2, 3), one-voxel mask. -/
theorem volume_pheno_formula_witness :
    add_pheno_group zeroStats (1, 2, 3) [5] [true] "R" "W" "Volume" "c" =
      .ok (some ⟨"R", "W", "Volume", 6, "c"⟩) := by
  have h := volume_pheno_formula zeroStats (1, 2, 3) [5] [true] "R" "W" "c"
    (by decide)
  rw [h]
  norm_num [mask_sum]

/-- C9: the phenotype catalog has exactly 27 names and `add_pheno_group`
fails with the invalid-phenotype-name error for any requested name outside
it, before computing anything. -/
theorem catalog_closed_and_invalid_name_error :
    declare_pheno_names.length = 27 ∧
    ∀ (fs : FloatStats) (sp : ℚ × ℚ × ℚ) (ct : List ℚ) (mask : List Bool)
      (chest_region chest_type cid name : String),
      name ∉ declare_pheno_names →
      add_pheno_group fs sp ct mask chest_region chest_type name cid =
        .error .invalidPhenotypeName := by
  refine ⟨rfl, ?_⟩
  intro fs sp ct mask cr cty cid name h
  simp [add_pheno_group, h]

/-- Witness for C9 at a concrete out-of-catalog name. -/
theorem catalog_closed_and_invalid_name_error_witness :
    add_pheno_group zeroStats (1, 1, 1) [] [] "R" "W" "NotAPhenotype" "c" =
      .error .invalidPhenotypeName :=
  catalog_closed_and_invalid_name_error.2 zeroStats (1, 1, 1) [] [] "R" "W" "c"
    "NotAPhenotype" (by decide)

/-- The guarded interval contributions of the `Mass` code equal the guardless
four-sum formula of the specification. -/
theorem mass_code_eq_spec (sp : ℚ × ℚ × ℚ) (v : List ℚ) :
    mass_code sp v = mass_spec_formula sp v := by
  simp only [mass_code, mass_spec_formula, spacing_prod, List.map_map,
    List.length_map, Function.comp_def, sum_ite_length_pos]

/-- C3: for a non-empty mask the `Mass` phenotype is exactly the
piecewise-linear four-interval density integration the specification states
(`mass_spec_formula`). -/
theorem mass_pheno_matches_piecewise_formula (fs : FloatStats) (sp : ℚ × ℚ × ℚ)
    (ct : List ℚ) (mask : List Bool) (chest_region chest_type cid : String)
    (h : 0 < mask_sum mask) :
    add_pheno_group fs sp ct mask chest_region chest_type "Mass" cid =
      .ok (some ⟨chest_region, chest_type, "Mass",
        mass_spec_formula sp (masked_values ct mask), cid⟩) := by
  simp [add_pheno_group, declare_pheno_names, pheno_value, mass_code_eq_spec,
    Except.map, Option.map]

/-- Witness for C3: a single voxel at 0 HU, unit spacing. -/
theorem mass_pheno_matches_piecewise_formula_witness :
    add_pheno_group zeroStats (1, 1, 1) [0] [true] "R" "W" "Mass" "c" =
      .ok (some ⟨"R", "W", "Mass", 509 / 500000, "c"⟩) := by
  have h := mass_pheno_matches_piecewise_formula zeroStats (1, 1, 1) [0] [true]
    "R" "W" "c" (by decide)
  rw [h]
  simp [mass_spec_formula, masked_values]
  norm_num

/-- C1 (amended): an all-background mask does not suppress every phenotype
row — `Volume` and `Mass` still emit a row, each with value 0; the restricted
"...500" statistics (here `HUMean500`) are the ones silently skipped. -/
theorem empty_mask_volume_mass_rows (fs : FloatStats) (sp : ℚ × ℚ × ℚ)
    (ct : List ℚ) (mask : List Bool) (chest_region chest_type cid : String)
    (h : mask_sum mask = 0) :
    add_pheno_group fs sp ct mask chest_region chest_type "Volume" cid =
      .ok (some ⟨chest_region, chest_type, "Volume", 0, cid⟩) ∧
    add_pheno_group fs sp ct mask chest_region chest_type "Mass" cid =
      .ok (some ⟨chest_region, chest_type, "Mass", 0, cid⟩) ∧
    add_pheno_group fs sp ct mask chest_region chest_type "HUMean500" cid =
      .ok none := by
  have hm := masked_values_eq_nil ct mask h
  refine ⟨?_, ?_, ?_⟩ <;>
    simp [add_pheno_group, declare_pheno_names, pheno_value, hm, h, mass_code,
      Except.map, Option.map]

/-- Witness for the amended C1 at a concrete all-false mask. -/
theorem empty_mask_volume_mass_rows_witness :
    add_pheno_group zeroStats (1, 1, 1) [5] [false] "R" "W" "Volume" "c" =
      .ok (some ⟨"R", "W", "Volume", 0, "c"⟩) ∧
    add_pheno_group zeroStats (1, 1, 1) [5] [false] "R" "W" "Mass" "c" =
      .ok (some ⟨"R", "W", "Mass", 0, "c"⟩) ∧
    add_pheno_group zeroStats (1, 1, 1) [5] [false] "R" "W" "HUMean500" "c" =
      .ok none :=
  empty_mask_volume_mass_rows zeroStats (1, 1, 1) [5] [false] "R" "W" "c"
    (by decide)

/-- C4: evaluation of `__init__` at a pair selector with element 300 — outside
[0, 255] — together with a valid chest-types selector: construction succeeds
and stores the out-of-range pair, because the pairs branch (source line 97)
validates `chest_types` instead of `pairs`. -/
theorem init_accepts_out_of_range_pair :
    (init_parenchyma none (some [3]) (some [(1, 300)]) none).map Engine.pairs_ =
      .ok (some [(1, 300)]) := by
  rfl

/-- C5: evaluation of the dimension check: shapes (2, 3, 2) and (2, 4, 2)
disagree on axis 1 yet pass, because every loop iteration compares axis 0
(source line 239); shapes that agree on every axis always pass. -/
theorem dim_check_axis_zero_only :
    dim_check [2, 3, 2] [2, 4, 2] = true ∧
    ∀ s : List Nat, dim_check s s = true := by
  refine ⟨rfl, ?_⟩
  intro s
  simp [dim_check, List.all_eq_true]

/-- C6: selector resolution — each of the three kinds independently takes the
call-time argument when given, else the constructor default; the sets of
regions, types and pairs actually present in the label map (via the Mask
Resolver) are substituted only when all three kinds are unspecified at both
levels; and a kind resolved to "unspecified" contributes no rows at all. -/
theorem selector_resolution_precedence
    (eR eT : Option (List Int)) (eP : Option (List (Int × Int)))
    (aR aT : Option (List Int)) (aP : Option (List (Int × Int))) (lm : List Int)
    (fs : FloatStats) (sp : ℚ × ℚ × ℚ) (ct : List ℚ) (phenos : List String)
    (cid : String) :
    (resolve_selectors eR eT eP aR aT aP lm =
      if aR = none ∧ eR = none ∧ aT = none ∧ eT = none ∧ aP = none ∧ eP = none
      then (some (get_all_chest_regions lm), some (get_chest_types lm),
            some (get_all_pairs lm))
      else ((aR.orElse fun _ => eR), (aT.orElse fun _ => eT),
            (aP.orElse fun _ => eP))) ∧
    region_loop_rows fs sp ct lm none phenos cid = .ok [] ∧
    type_loop_rows fs sp ct lm aR none phenos cid = .ok [] ∧
    pair_loop_rows fs sp ct lm none phenos cid = .ok [] := by
  refine ⟨?_, rfl, rfl, rfl⟩
  cases aR <;> cases eR <;> cases aT <;> cases eT <;> cases aP <;> cases eP <;>
    simp [resolve_selectors, Option.orElse]

/-- C7: `execute` is a pure aggregation — the rows appended in one call are a
function of the inputs and configuration alone (an arbitrary prior table
state only gets prefixed, never inspected), so two engines with the same
configuration and identical inputs produce identical tables; the volumes are
immutable values of the embedding, matching a source that never writes to
`ct` or `lm`. -/
theorem execute_pure_deterministic (fs : FloatStats) (e : Engine) (ct : Vol ℚ)
    (lm : Vol Int) (cid : String) (sp : ℚ × ℚ × ℚ)
    (aR aT : Option (List Int)) (aP : Option (List (Int × Int)))
    (aN : Option (List String)) :
    execute fs e ct lm cid sp aR aT aP aN =
      (execute fs { e with df := [] } ct lm cid sp aR aT aP aN).map
        (fun r => { r with df := e.df ++ r.df }) := by
  simp only [execute]
  by_cases hd : dim_check ct.shape lm.shape
  · simp only [hd, if_true, resolve_pheno_names]
    cases execute_rows fs sp ct.data lm.data
        (resolve_selectors e.chest_regions_ e.chest_types_ e.pairs_ aR aT aP
          lm.data).1
        (resolve_selectors e.chest_regions_ e.chest_types_ e.pairs_ aR aT aP
          lm.data).2.1
        (resolve_selectors e.chest_regions_ e.chest_types_ e.pairs_ aR aT aP
          lm.data).2.2
        (match aN with
         | some l => l
         | none => match e.requested_pheno_names with
           | some l => l
           | none => e.pheno_names_) cid with
    | error er => simp [Except.map]
    | ok rows => simp [Except.map]
  · simp [hd, Except.map]

/-- The engine `ParenchymaPhenotypes()` constructs when no selector and no
phenotype-name list is given. -/
def fresh_engine : Engine :=
  { chest_regions_ := none, chest_types_ := none, pairs_ := none,
    requested_pheno_names := none, pheno_names_ := declare_pheno_names,
    df := [], cid_ := none }

/-- C1 (counterexample): a freshly constructed engine, asked for region 7 —
absent from the label map, so its mask has zero `True` voxels — and the
`Volume` phenotype, emits one row (value 0) for that structure instead of
none. -/
theorem execute_empty_mask_emits_row_cx :
    init_parenchyma none none none none = .ok fresh_engine ∧
    (execute zeroStats fresh_engine ⟨[1, 1, 2], [-1000, -1000]⟩
        ⟨[1, 1, 2], [0, 0]⟩ "CASE" (1, 1, 1) (some [7]) none none
        (some ["Volume"])).map Engine.df =
      .ok [⟨GetChestRegionName 7, GetChestWildCardName, "Volume", 0, "CASE"⟩] := by
  constructor
  · rfl
  · simp [execute, dim_check, resolve_pheno_names, resolve_selectors,
      execute_rows, region_loop_rows, type_loop_rows, pair_loop_rows,
      group_rows, List.foldlM, add_pheno_group, declare_pheno_names,
      pheno_value, get_mask_region, regionOf, mask_sum, masked_values,
      spacing_prod, leaked_region_var, fresh_engine, Except.bind, bind, pure,
      Except.pure, Except.map, Option.map, Option.toList]

/-- C2 evaluation at the failing input: a fresh engine run with region
selector [1] and type selector [3] — the type-only row's type-axis name is
the name of code 1 (the leaked regions-loop variable `r`), not the name of
the processed type code 3. -/
theorem type_rows_use_leaked_region_variable :
    (execute zeroStats fresh_engine ⟨[1, 1, 1], [-1000]⟩ ⟨[1, 1, 1], [1]⟩
        "CASE" (1, 1, 1) (some [1]) (some [3]) none
        (some ["Volume"])).map (fun e => e.df.map Row.chest_type) =
      .ok [GetChestWildCardName, GetChestTypeName 1] ∧
    GetChestTypeName 1 ≠ GetChestTypeName 3 := by
  constructor
  · simp [execute, dim_check, resolve_pheno_names, resolve_selectors,
      execute_rows, region_loop_rows, type_loop_rows, pair_loop_rows,
      group_rows, List.foldlM, add_pheno_group, declare_pheno_names,
      pheno_value, get_mask_region, get_mask_type, regionOf, typeOf, mask_sum,
      masked_values, spacing_prod, leaked_region_var, fresh_engine,
      Except.bind, bind, pure, Except.pure, Except.map, Option.map,
      Option.toList]
  · decide

/-- The mean of a nonempty constant list is the constant. -/
theorem listMean_replicate (n : Nat) (c : ℚ) (h : n ≠ 0) :
    listMean (List.replicate n c) = c := by
  rw [listMean]
  simp [List.sum_replicate, nsmul_eq_mul]
  exact mul_div_cancel_left₀ c (by exact_mod_cast h)

/-- A constant list has variance 0. -/
theorem listVar_replicate (n : Nat) (c : ℚ) :
    listVar (List.replicate n c) = 0 := by
  cases n with
  | zero => simp [listVar, listMean]
  | succ m =>
    have hm := listMean_replicate (m + 1) c (Nat.succ_ne_zero m)
    simp [listVar, hm]

/-- C10: in `standardization` with `std_value=None`, a computed standard
deviation of at most 0.0001 makes the divisor 1.0; the divisor is never zero
(so the division step cannot divide by zero); and a constant input image with
`mean_value=None` comes out exactly all-zero. -/
theorem standardization_guard_divisor (imgStd : List ℚ → ℚ) (img : List ℚ)
    (mv : Option ℚ) (h0 : 0 ≤ imgStd img) :
    (imgStd img ≤ 1 / 10000 →
      standardization imgStd img mv none =
        (img.map (fun x =>
          x - (match mv with | some v => v | none => listMean img))).map
          (fun x => x / 1)) ∧
    (∃ s : ℚ, s ≠ 0 ∧ standardization imgStd img mv none =
      (img.map (fun x =>
        x - (match mv with | some v => v | none => listMean img))).map
        (fun x => x / s)) ∧
    (∀ (c : ℚ) (n : Nat), img = List.replicate n c →
      (imgStd img) ^ 2 = listVar img →
      standardization imgStd img none none = List.replicate n 0) := by
  refine ⟨?_, ?_, ?_⟩
  · intro hle
    simp only [standardization]
    rw [if_pos hle]
  · by_cases hle : imgStd img ≤ 1 / 10000
    · exact ⟨1, one_ne_zero, by simp only [standardization]; rw [if_pos hle]⟩
    · refine ⟨imgStd img, ?_, by simp only [standardization]; rw [if_neg hle]⟩
      intro hz
      rw [hz] at hle
      exact hle (by norm_num)
  · intro c n himg hvar
    have hv0 : listVar img = 0 := by rw [himg]; exact listVar_replicate n c
    have hs0 : imgStd img = 0 := by
      have h2 : imgStd img ^ 2 = 0 := hvar.trans hv0
      exact (pow_eq_zero_iff two_ne_zero).mp h2
    subst himg
    cases n with
    | zero => simp [standardization]
    | succ m =>
      have hm := listMean_replicate (m + 1) c (Nat.succ_ne_zero m)
      simp [standardization, hs0, hm, List.map_replicate]

/-- Witness for C10: the constant image [5, 5, 5] with both parameters `None`
standardizes to the all-zero image. -/
theorem standardization_guard_divisor_witness :
    standardization (fun _ => 0) [5, 5, 5] none none = [0, 0, 0] := by
  have hvar : ((fun (_ : List ℚ) => (0 : ℚ)) [5, 5, 5]) ^ 2 =
      listVar [5, 5, 5] := by
    norm_num [listVar, listMean]
  have h := (standardization_guard_divisor (fun _ => 0) [5, 5, 5] none
    (le_refl 0)).2.2 5 3 rfl hvar
  simpa using h
